import Mathlib

/-!
Shallow embedding of the HTTP client core in `src/services/api.ts`
(timeout guard, response interpreter, request client, retry runner).

JavaScript runtime values that can appear as a parsed response body, as a
thrown value, or as a property of either, are modelled by `JSVal`.  Numbers
are modelled as integers (every value the claims exercise is an integer).
Asynchronous effects are modelled by explicit data flow: the outcome of the
external `fetch` call is an input, timers are an explicit count of
scheduled/cleared callbacks, and promise rejection is the `Except` error
channel.
-/

/-- A JavaScript value: `undefined`, `null`, booleans, (integer) numbers,
strings, arrays and plain objects (association lists of fields). -/
inductive JSVal where
  | undefined : JSVal
  | null : JSVal
  | bool : Bool → JSVal
  | num : Int → JSVal
  | str : String → JSVal
  | arr : List JSVal → JSVal
  | obj : List (String × JSVal) → JSVal

/-- JavaScript truthiness: `undefined`, `null`, `false`, `0` and `""` are
falsy; every array and object (including the empty ones) is truthy. -/
def truthy : JSVal → Bool
  | .undefined => false
  | .null => false
  | .bool b => b
  | .num n => n != 0
  | .str s => s != ""
  | .arr _ => true
  | .obj _ => true

/-- Whether `typeof v === "object"` holds in JavaScript: true for `null`,
arrays and plain objects. -/
def isObjectType : JSVal → Bool
  | .null => true
  | .arr _ => true
  | .obj _ => true
  | _ => false

mutual

/-- JavaScript string coercion `String(v)`, as applied by the `Error`
constructor to its message argument. -/
def jsToString : JSVal → String
  | .undefined => "undefined"
  | .null => "null"
  | .bool true => "true"
  | .bool false => "false"
  | .num n => toString n
  | .str s => s
  | .arr xs => jsListToString xs
  | .obj _ => "[object Object]"

/-- `Array.prototype.toString`: elements joined by commas. -/
def jsListToString : List JSVal → String
  | [] => ""
  | [x] => jsElemToString x
  | x :: y :: xs => jsElemToString x ++ "," ++ jsListToString (y :: xs)

/-- Element stringification inside an array join: `null` and `undefined`
become the empty string. -/
def jsElemToString : JSVal → String
  | .undefined => ""
  | .null => ""
  | v => jsToString v

end

/-- Property access `v[k]` on a value that is not nullish: field lookup on
objects, `undefined` on every other receiver (no prototype properties are
modelled). -/
def jsProp (v : JSVal) (k : String) : JSVal :=
  match v with
  | .obj fields => (fields.lookup k).getD .undefined
  | _ => .undefined

/-- The coercion `data && typeof data === "object" ? data : \x7b\x7d` from
`handleResponse` (line 67): keep the value when it is a truthy object,
otherwise replace it with the empty object.  Note that `null` has
`typeof === "object"` but is falsy, so it also becomes the empty object. -/
def coerceToObj (v : JSVal) : JSVal :=
  if truthy v && isObjectType v then v else .obj []

/-- The idiom `safeData.message || dflt`: the `message` property when it is
truthy (stringified by the `Error` constructor), otherwise the default. -/
def messageOr (safeData : JSVal) (dflt : String) : String :=
  let m := jsProp safeData "message"
  if truthy m then jsToString m else dflt

/-- The `ApiError` class: an `Error` subclass carrying an HTTP status (0 for
non-HTTP failures), a message, and an optional structured payload. -/
structure ApiError where
  status : Nat
  message : String
  data : Option JSVal


/-- A value thrown (promise rejection) inside the pipeline: an `ApiError`,
some other `Error` instance (identified by its `name` and `message`, e.g. a
`TypeError` or an `AbortError` from the abort controller), or a thrown value
that is not an `Error` instance at all. -/
inductive Thrown where
  | api : ApiError → Thrown
  | err : (name : String) → (message : String) → Thrown
  | nonError : JSVal → Thrown


/-- Modelled from the spec: the localized default message table
`API_ERROR_MESSAGES` is imported from `@/config/api`, which is not among the
provided sources.  The spec describes it as "a table of localized default
messages keyed by error category (unauthorized, forbidden, not-found,
server-error, timeout, network-error)", so it is modelled as a record of six
distinct strings. -/
structure ErrorMessages where
  UNAUTHORIZED : String
  FORBIDDEN : String
  NOT_FOUND : String
  SERVER_ERROR : String
  TIMEOUT : String
  NETWORK_ERROR : String

/-- Modelled from the spec: one table instance with a distinct placeholder
string per category. -/
def API_ERROR_MESSAGES : ErrorMessages :=
  { UNAUTHORIZED := "unauthorized message"
    FORBIDDEN := "forbidden message"
    NOT_FOUND := "not found message"
    SERVER_ERROR := "server error message"
    TIMEOUT := "timeout message"
    NETWORK_ERROR := "network error message" }

/-- Outcome of reading and parsing the body of a `Response`, by declared
content type: a JSON body that parses to a value, a malformed JSON body
(`response.json()` rejects), a text body read successfully, or a failed body
read. -/
inductive BodyOutcome where
  | jsonVal : JSVal → BodyOutcome
  | jsonErr : BodyOutcome
  | textVal : String → BodyOutcome
  | textErr : BodyOutcome


/-- A raw transport response: HTTP status plus the body (with its parse
outcome under the declared content type). -/
structure Response where
  status : Nat
  body : BodyOutcome

/-- The value `data` produced by the parse block of `handleResponse`
(lines 54-60): the parsed JSON value, or the text body as a string; `none`
when parsing/reading throws. -/
def readBody : BodyOutcome → Option JSVal
  | .jsonVal v => some v
  | .jsonErr => none
  | .textVal s => some (.str s)
  | .textErr => none

/-- `response.ok` of the Fetch API: status in the range 200-299. -/
def respOk (status : Nat) : Bool :=
  decide (200 ≤ status ∧ status < 300)

/-- `handleResponse` (lines 52-104).  Parse failure throws
`ApiError(status, "Invalid response format from server")` with no data.
A non-ok status dispatches on the exact status code, throwing an `ApiError`
whose message is `safeData.message || <default>` and whose data is the
coerced body.  An ok status returns `data.data || data`; when `data` is
`null` the property access itself throws a raw `TypeError` (this is the one
spot where `handleResponse` can reject with a non-`ApiError`). -/
def handleResponse (r : Response) : Except Thrown JSVal :=
  match readBody r.body with
  | none => .error (.api ⟨r.status, "Invalid response format from server", none⟩)
  | some data =>
    if !respOk r.status then
      let safeData := coerceToObj data
      match r.status with
      | 400 => .error (.api ⟨r.status, messageOr safeData "Dữ liệu không hợp lệ", some safeData⟩)
      | 401 => .error (.api ⟨r.status, messageOr safeData API_ERROR_MESSAGES.UNAUTHORIZED, some safeData⟩)
      | 403 => .error (.api ⟨r.status, messageOr safeData API_ERROR_MESSAGES.FORBIDDEN, some safeData⟩)
      | 404 => .error (.api ⟨r.status, messageOr safeData API_ERROR_MESSAGES.NOT_FOUND, some safeData⟩)
      | _ => .error (.api ⟨r.status, messageOr safeData API_ERROR_MESSAGES.SERVER_ERROR, some safeData⟩)
    else
      match data with
      | .null => .error (.err "TypeError" "Cannot read properties of null")
      | .undefined => .error (.err "TypeError" "Cannot read properties of undefined")
      | d =>
        let inner := jsProp d "data"
        .ok (if truthy inner then inner else d)

/-- A header map: an association list from header name to value, each key
occurring at most once (the JavaScript-object model). -/
abbrev Headers := List (String × String)

/-- JavaScript object spread merge, as in the idiom
`...a, ...b` inside an object literal: every key of `b` wins over the same
key of `a`; keys present in only one side are kept. -/
def mergeHeaders (a b : Headers) : Headers :=
  a.filter (fun p => (b.lookup p.1).isNone) ++ b

/-- Modelled from the spec: `API_CONFIG.DEFAULT_HEADERS` is imported from
`@/config/api`, which is not among the provided sources.  The spec states
the wire contract sends JSON bodies for write verbs and that `upload`
"explicitly clears the headers that would otherwise force a JSON content
type", so the static default headers are modelled as containing
`Content-Type: application/json`. -/
def API_CONFIG_DEFAULT_HEADERS : Headers :=
  [("Content-Type", "application/json")]

/-- The module-level `defaultHeaders` constant (lines 22-25): the static
config defaults plus `Accept: application/json`. -/
def initDefaultHeaders : Headers :=
  mergeHeaders API_CONFIG_DEFAULT_HEADERS [("Accept", "application/json")]

/-- `apiClient.setDefaultHeaders` (lines 109-114): spread-merge the given
headers over the current process-wide default headers (argument wins per
key). -/
def setDefaultHeaders (current headers : Headers) : Headers :=
  mergeHeaders current headers

/-- `apiClient.removeDefaultHeader` (lines 116-118): `delete` the entry with
the given key from the process-wide default headers. -/
def removeDefaultHeader (current : Headers) (headerName : String) : Headers :=
  current.filter (fun p => p.1 != headerName)

/-- The headers field of the request config that `upload` (lines 199-213)
passes to `request`: the object literal lists `headers: ` as the empty
object and then spreads the caller's config AFTER it, so a caller-supplied
`headers` field replaces the empty object; with no caller `headers` field
the empty object stands. -/
def uploadConfigHeaders (callerHeaders : Option Headers) : Headers :=
  match callerHeaders with
  | some h => h
  | none => []

/-- What a run of `fetchWithTimeout` produces: the settled fetch outcome,
the headers actually sent on the wire, and how many timer callbacks were
scheduled and cleared during the run. -/
structure FetchResult where
  result : Except Thrown Response
  sentHeaders : Headers
  timersScheduled : Nat
  timersCleared : Nat

/-- `fetchWithTimeout` (lines 27-50).  One timer is scheduled before the
fetch; the headers sent are the spread-merge of the process-wide defaults
with the per-call config headers (caller wins per key).  The settled
outcome of the external `fetch` (a response, or a rejection such as an
`AbortError` when the timer fired first) is the `outcome` input.  On the
resolve path the timer is cleared and the response returned; on the reject
path the timer is cleared and the same error rethrown. -/
def fetchWithTimeout (defaults cfgHeaders : Headers)
    (outcome : Except Thrown Response) : FetchResult :=
  match outcome with
  | .ok response =>
    { result := .ok response
      sentHeaders := mergeHeaders defaults cfgHeaders
      timersScheduled := 1
      timersCleared := 1 }
  | .error e =>
    { result := .error e
      sentHeaders := mergeHeaders defaults cfgHeaders
      timersScheduled := 1
      timersCleared := 1 }

/-- Whether the character list `l` starts with the character list `sub`. -/
def listStartsWith : List Char → List Char → Bool
  | [], _ => true
  | _ :: _, [] => false
  | a :: as, b :: bs => a == b && listStartsWith as bs

/-- Whether `sub` occurs as a contiguous run inside `l`. -/
def listContainsSub (sub : List Char) : List Char → Bool
  | [] => listStartsWith sub []
  | l@(_ :: rest) => listStartsWith sub l || listContainsSub sub rest

/-- JavaScript `String.prototype.includes`: substring occurrence test. -/
def strContainsSub (s sub : String) : Bool :=
  listContainsSub sub.toList s.toList

/-- The `catch` block of `apiClient.request` (lines 126-146), classifying a
value thrown before the `return handleResponse(response)` line: an
`ApiError` passes through; an `Error` named `AbortError` becomes
`ApiError(408, timeout)`; an `Error` whose message contains
"Failed to fetch" becomes `ApiError(0, cannot-connect)`; any other `Error`
becomes `ApiError(0, network-error)`; a thrown non-`Error` value becomes
`ApiError(0, server-error)`. -/
def classifyError (e : Thrown) : ApiError :=
  match e with
  | .api a => a
  | .err name msg =>
    if name == "AbortError" then
      ⟨408, API_ERROR_MESSAGES.TIMEOUT, none⟩
    else if strContainsSub msg "Failed to fetch" then
      ⟨0, "Không thể kết nối đến server. Vui lòng kiểm tra kết nối mạng hoặc thử lại sau.", none⟩
    else
      ⟨0, API_ERROR_MESSAGES.NETWORK_ERROR, none⟩
  | .nonError _ => ⟨0, API_ERROR_MESSAGES.SERVER_ERROR, none⟩

/-- `apiClient.request` (lines 120-147).  The awaited `fetchWithTimeout`
rejection is caught and classified; but `handleResponse(response)` is
returned WITHOUT `await` from inside the `try`, so a rejection of
`handleResponse` bypasses the `catch` block entirely and propagates to the
caller as-is. -/
def request (defaults cfgHeaders : Headers)
    (outcome : Except Thrown Response) : Except Thrown JSVal :=
  match (fetchWithTimeout defaults cfgHeaders outcome).result with
  | .error e => .error (.api (classifyError e))
  | .ok response => handleResponse response

/-- The loop of `retryRequest` (lines 224-234), with the attempt outcomes of
the operation given as a function from attempt index to outcome.  `remaining`
counts the loop iterations still allowed (initially `maxRetries`), `i` is
the current attempt index, `lastError` the `lastError` variable (`none`
models its never-assigned `undefined` state), and `invoked`/`delays` count
operation invocations and `setTimeout` delay waits so far.  The delay runs
exactly when the failed attempt was not the last one
(`i < maxRetries - 1`, i.e. iterations remain after this one). -/
def retryAux (attempts : Nat → Except Thrown JSVal) :
    Nat → Nat → Option Thrown → Nat → Nat →
    Except (Option Thrown) JSVal × Nat × Nat
  | 0, _, lastError, invoked, delays => (.error lastError, invoked, delays)
  | remaining + 1, i, _, invoked, delays =>
    match attempts i with
    | .ok v => (.ok v, invoked + 1, delays)
    | .error e =>
      let delays' := if remaining > 0 then delays + 1 else delays
      retryAux attempts remaining (i + 1) (some e) (invoked + 1) delays'

/-- `retryRequest` (lines 217-237): run up to `maxRetries` attempts with a
fixed delay between consecutive attempts; return the settled result (a
success value, or the thrown `lastError` — `none` standing for the
`undefined` it holds when no attempt ever ran) together with the number of
operation invocations and the number of delay waits. -/
def retryRequest (attempts : Nat → Except Thrown JSVal) (maxRetries : Nat) :
    Except (Option Thrown) JSVal × Nat × Nat :=
  retryAux attempts maxRetries 0 none 0 0

theorem lookup_append (l₁ l₂ : Headers) (k : String) :
    (l₁ ++ l₂).lookup k = ((l₁.lookup k).or (l₂.lookup k)) := by
  induction l₁ with
  | nil => simp [List.lookup]
  | cons hd t ih =>
    obtain ⟨a, v⟩ := hd
    by_cases hk : k = a
    · subst hk
      simp [List.lookup]
    · have hne : (k == a) = false := by simp [hk]
      simp [List.lookup, hne, ih]

theorem lookup_filterKey (p : String → Bool) (l : Headers) (k : String) :
    (l.filter (fun e => p e.1)).lookup k = if p k then l.lookup k else none := by
  induction l with
  | nil => simp [List.lookup]
  | cons hd t ih =>
    obtain ⟨a, v⟩ := hd
    by_cases hpa : p a
    · by_cases hk : k = a
      · subst hk
        simp [List.filter, List.lookup, hpa]
      · have hne : (k == a) = false := by simp [hk]
        simp [List.filter, List.lookup, hpa, hne, ih]
    · by_cases hk : k = a
      · subst hk
        simp [List.filter, List.lookup, hpa, ih]
      · have hne : (k == a) = false := by simp [hk]
        simp [List.filter, List.lookup, hpa, hne, ih]

theorem lookup_mergeHeaders (a b : Headers) (k : String) :
    (mergeHeaders a b).lookup k = ((b.lookup k).or (a.lookup k)) := by
  unfold mergeHeaders
  rw [lookup_append, lookup_filterKey (fun x => (b.lookup x).isNone)]
  cases hb : b.lookup k <;> simp [hb]

theorem lookup_removeDefaultHeader (l : Headers) (name k : String) :
    (removeDefaultHeader l name).lookup k = if k = name then none else l.lookup k := by
  unfold removeDefaultHeader
  rw [show (fun p : String × String => p.1 != name) = (fun p : String × String => (fun x => x != name) p.1) from rfl]
  rw [lookup_filterKey (fun x => x != name)]
  by_cases hk : k = name <;> simp [hk]

/-- C1: the claim says every failure surfacing from `apiClient.request` is a
TypedError (`ApiError`) and no raw runtime error escapes.  The code violates
this: on a 200 response with JSON body `null`, `handleResponse` evaluates
`data.data` on `null` and rejects with a raw `TypeError`; and because
`request` returns `handleResponse(response)` without `await` from inside its
`try`, the rejection bypasses the `catch` block and reaches the caller
unclassified.  This theorem evaluates the pipeline at that input and shows
the escaped value is not an `ApiError`. -/
theorem c1_raw_typeError_escapes :
    request [] [] (.ok ⟨200, .jsonVal .null⟩)
        = .error (.err "TypeError" "Cannot read properties of null")
      ∧ ∀ e : ApiError,
          Thrown.err "TypeError" "Cannot read properties of null" ≠ .api e :=
  ⟨rfl, fun _ h => nomatch h⟩

/-- C2 counterexample: the claim says a 2xx body of the form
`\x7bdata: X, ...\x7d` resolves to `X` for EVERY `X`, including falsy values
such as `0`.  The code computes `data.data || data`, so for the body
`\x7bdata: 0\x7d` the whole body is returned, not `0`. -/
theorem c2_falsy_data_not_unwrapped :
    handleResponse ⟨200, .jsonVal (.obj [("data", .num 0)])⟩
        = .ok (.obj [("data", .num 0)])
      ∧ JSVal.obj [("data", .num 0)] ≠ .num 0 :=
  ⟨rfl, fun h => nomatch h⟩

/-- C2 (amended): for every 2xx response whose parsed body is an object, the
`data` field is unwrapped and returned exactly when it is truthy; when the
`data` field is falsy or absent, the whole parsed body is returned. -/
theorem c2_unwrap_amended (r : Response) (fields : List (String × JSVal))
    (hok : respOk r.status = true) (hb : readBody r.body = some (.obj fields)) :
    (∀ X, fields.lookup "data" = some X →
        handleResponse r = .ok (if truthy X then X else .obj fields))
    ∧ (fields.lookup "data" = none → handleResponse r = .ok (.obj fields)) := by
  constructor
  · intro X hX
    simp [handleResponse, hb, hok, jsProp, hX]
  · intro hX
    simp [handleResponse, hb, hok, jsProp, hX, truthy]

/-- Witness for the amended C2 at a concrete input: body
`\x7bdata: "x"\x7d` on a 200 response resolves to `"x"`. -/
theorem c2_unwrap_amended_witness :
    handleResponse ⟨200, .jsonVal (.obj [("data", .str "x")])⟩ = .ok (.str "x") := by
  have h := (c2_unwrap_amended ⟨200, .jsonVal (.obj [("data", .str "x")])⟩
      [("data", .str "x")] rfl rfl).1 (.str "x") rfl
  exact h

/-- C4: whenever reading/parsing the body throws, `handleResponse` fails
with `ApiError(status, "Invalid response format from server")`, where
`status` is the response's actual HTTP status (success statuses included)
and no data is attached. -/
theorem c4_parse_failure_typed (r : Response) (h : readBody r.body = none) :
    handleResponse r
      = .error (.api ⟨r.status, "Invalid response format from server", none⟩) := by
  simp [handleResponse, h]

/-- Witness for C4: a malformed JSON body on a 200 response yields the
invalid-response-format `ApiError` with status 200. -/
theorem c4_parse_failure_typed_witness :
    handleResponse ⟨200, .jsonErr⟩
      = .error (.api ⟨200, "Invalid response format from server", none⟩) :=
  c4_parse_failure_typed ⟨200, .jsonErr⟩ rfl

/-- C7: calling `retryRequest` with `maxRetries = 0` never invokes the
operation, performs no delay wait, and fails by throwing the never-assigned
`lastError` variable (`none` modelling its `undefined` value). -/
theorem c7_zero_retries (attempts : Nat → Except Thrown JSVal) :
    retryRequest attempts 0 = (.error none, 0, 0) :=
  rfl

/-- C8: the claim (and the code comment on line 210) says `upload` clears
the headers so that no `Content-Type` header is sent.  The code violates
this: `upload` passes `headers: ` as the empty object, but
`fetchWithTimeout` spread-merges the process-wide defaults UNDER the
per-call headers, and spreading an empty object removes nothing — so the
default `Content-Type: application/json` is still present on the wire. -/
theorem c8_upload_still_sends_json_content_type :
    ((fetchWithTimeout initDefaultHeaders (uploadConfigHeaders none)
        (.ok ⟨200, .textVal ""⟩)).sentHeaders).lookup "Content-Type"
      = some "application/json" :=
  rfl

/-- C3 counterexample: the claim says the TypedError's message equals the
body's `message` field whenever the body has one.  The code uses
`safeData.message || <default>`, so a PRESENT but falsy `message` field
(the empty string) is replaced by the status-mapped default: for a 400
response with body `\x7bmessage: ""\x7d` the resulting message is the
localized invalid-data default, not `""`. -/
theorem c3_empty_message_replaced_by_default :
    handleResponse ⟨400, .jsonVal (.obj [("message", .str "")])⟩
        = .error (.api ⟨400, "Dữ liệu không hợp lệ",
            some (.obj [("message", .str "")])⟩)
      ∧ "Dữ liệu không hợp lệ" ≠ "" :=
  ⟨rfl, by decide⟩

/-- The per-status default message table used by the `switch` of
`handleResponse` (400 → localized invalid-data, 401 → unauthorized,
403 → forbidden, 404 → not-found, any other → generic server-error). -/
def defaultMessageFor (status : Nat) : String :=
  match status with
  | 400 => "Dữ liệu không hợp lệ"
  | 401 => API_ERROR_MESSAGES.UNAUTHORIZED
  | 403 => API_ERROR_MESSAGES.FORBIDDEN
  | 404 => API_ERROR_MESSAGES.NOT_FOUND
  | _ => API_ERROR_MESSAGES.SERVER_ERROR

/-- C3 (amended): for every non-2xx response whose body parses, the
TypedError has the response's status, message equal to the body's `message`
field when that field is present and truthy (otherwise the status-mapped
default message), and data equal to the parsed body coerced to an object
(the empty object when the parsed body is not a truthy object). -/
theorem c3_error_shape_amended (r : Response) (b : JSVal)
    (hb : readBody r.body = some b) (hok : respOk r.status = false) :
    handleResponse r
      = .error (.api ⟨r.status,
          messageOr (coerceToObj b) (defaultMessageFor r.status),
          some (coerceToObj b)⟩) := by
  unfold handleResponse
  rw [hb]
  simp only [hok, Bool.not_false, if_true]
  split <;> simp_all [defaultMessageFor]

/-- Witness for the amended C3 at a concrete input: a 404 response with a
truthy body message uses that message and carries the body as data. -/
theorem c3_error_shape_amended_witness :
    handleResponse ⟨404, .jsonVal (.obj [("message", .str "nope")])⟩
      = .error (.api ⟨404, "nope", some (.obj [("message", .str "nope")])⟩) := by
  have h := c3_error_shape_amended ⟨404, .jsonVal (.obj [("message", .str "nope")])⟩
      (.obj [("message", .str "nope")]) rfl rfl
  exact h.trans (by simp [messageOr, jsProp, truthy, coerceToObj, isObjectType, jsToString, defaultMessageFor])

/-- C5 counterexample: the claim says every failure that is neither a
TypedError, nor an abort, nor a connect failure maps to
`TypedError(0, network-error message)`.  The code's `catch` block maps a
thrown value that is not an `Error` instance to
`ApiError(0, SERVER_ERROR)` instead (line 145), and the two table messages
are distinct. -/
theorem c5_non_error_gets_server_error_message :
    request [] [] (.error (.nonError (.str "boom")))
        = .error (.api ⟨0, API_ERROR_MESSAGES.SERVER_ERROR, none⟩)
      ∧ API_ERROR_MESSAGES.SERVER_ERROR ≠ API_ERROR_MESSAGES.NETWORK_ERROR :=
  ⟨rfl, by decide⟩

/-- C5 (amended): classification of values thrown before the
`return handleResponse(response)` line: an `ApiError` passes through
unchanged (and an `ApiError` rejection of `handleResponse` also reaches the
caller unchanged); an `AbortError` maps to the 408 timeout error; another
`Error` whose message contains "Failed to fetch" maps to the status-0
cannot-connect error; any other `Error` maps to the status-0 generic
network error; and a thrown non-`Error` value maps to the status-0 generic
SERVER-error message (not the network-error message). -/
theorem c5_classification_amended (defaults cfg : Headers) :
    (∀ e : ApiError, request defaults cfg (.error (.api e)) = .error (.api e))
    ∧ (∀ (r : Response) (e : ApiError), handleResponse r = .error (.api e) →
        request defaults cfg (.ok r) = .error (.api e))
    ∧ (∀ msg, request defaults cfg (.error (.err "AbortError" msg))
        = .error (.api ⟨408, API_ERROR_MESSAGES.TIMEOUT, none⟩))
    ∧ (∀ name msg, name ≠ "AbortError" →
        strContainsSub msg "Failed to fetch" = true →
        request defaults cfg (.error (.err name msg))
          = .error (.api ⟨0,
              "Không thể kết nối đến server. Vui lòng kiểm tra kết nối mạng hoặc thử lại sau.",
              none⟩))
    ∧ (∀ name msg, name ≠ "AbortError" →
        strContainsSub msg "Failed to fetch" = false →
        request defaults cfg (.error (.err name msg))
          = .error (.api ⟨0, API_ERROR_MESSAGES.NETWORK_ERROR, none⟩))
    ∧ (∀ v : JSVal, request defaults cfg (.error (.nonError v))
        = .error (.api ⟨0, API_ERROR_MESSAGES.SERVER_ERROR, none⟩)) := by
  refine ⟨fun e => rfl, fun r e h => ?_, fun msg => ?_, fun name msg h1 h2 => ?_,
    fun name msg h1 h2 => ?_, fun v => rfl⟩
  · simp [request, fetchWithTimeout, h]
  · simp [request, fetchWithTimeout, classifyError]
  · simp [request, fetchWithTimeout, classifyError, h1, h2]
  · simp [request, fetchWithTimeout, classifyError, h1, h2]

/-- Witness for the amended C5 at a concrete input: a raw
`TypeError: Failed to fetch` from the transport maps to the status-0
cannot-connect TypedError. -/
theorem c5_classification_amended_witness :
    request [] [] (.error (.err "TypeError" "TypeError: Failed to fetch"))
      = .error (.api ⟨0,
          "Không thể kết nối đến server. Vui lòng kiểm tra kết nối mạng hoặc thử lại sau.",
          none⟩) :=
  (c5_classification_amended [] []).2.2.2.1 "TypeError" "TypeError: Failed to fetch"
    (by decide) rfl

/-- C6: `retryRequest(op, 3, _)` where the operation fails on attempts 0 and
1 and succeeds on attempt 2 resolves with the success value after exactly 3
invocations and exactly 2 delay waits; where the operation fails on all
three attempts, it rejects with exactly the error thrown by the 3rd (last)
attempt after exactly 3 invocations (and 2 delay waits — none after the
final attempt). -/
theorem c6_retry_three_attempts (f g : Nat → Except Thrown JSVal) (v : JSVal)
    (e0 e1 t0 t1 t2 : Thrown)
    (hf0 : f 0 = .error e0) (hf1 : f 1 = .error e1) (hf2 : f 2 = .ok v)
    (hg0 : g 0 = .error t0) (hg1 : g 1 = .error t1) (hg2 : g 2 = .error t2) :
    retryRequest f 3 = (.ok v, 3, 2)
    ∧ retryRequest g 3 = (.error (some t2), 3, 2) := by
  constructor
  · simp [retryRequest, retryAux, hf0, hf1, hf2]
  · simp [retryRequest, retryAux, hg0, hg1, hg2]

/-- Witness for C6 at concrete operations: one fails twice then returns `7`,
the other fails on every attempt with the attempt index as payload. -/
theorem c6_retry_three_attempts_witness :
    retryRequest (fun i => if i == 2 then .ok (.num 7)
        else .error (.nonError (.num (Int.ofNat i)))) 3
      = (.ok (.num 7), 3, 2)
    ∧ retryRequest (fun i => .error (.nonError (.num (Int.ofNat i)))) 3
      = (.error (some (.nonError (.num 2))), 3, 2) :=
  c6_retry_three_attempts
    (fun i => if i == 2 then .ok (.num 7) else .error (.nonError (.num (Int.ofNat i))))
    (fun i => .error (.nonError (.num (Int.ofNat i))))
    (.num 7) (.nonError (.num 0)) (.nonError (.num 1))
    (.nonError (.num 0)) (.nonError (.num 1)) (.nonError (.num 2))
    rfl rfl rfl rfl rfl rfl

/-- C9: for every run of the timeout guard, exactly as many timers are
cleared as were scheduled, on the success exit path and on the failure exit
path alike; and when the fetch outcome is the abort signal raised by the
timeout (an `AbortError`), the request fails with the 408 timeout
TypedError. -/
theorem c9_timer_cleared_and_timeout_408 (defaults cfg : Headers)
    (outcome : Except Thrown Response) (msg : String) :
    ((fetchWithTimeout defaults cfg outcome).timersCleared
        = (fetchWithTimeout defaults cfg outcome).timersScheduled)
    ∧ (outcome = .error (.err "AbortError" msg) →
        request defaults cfg outcome
          = .error (.api ⟨408, API_ERROR_MESSAGES.TIMEOUT, none⟩)) := by
  constructor
  · cases outcome <;> rfl
  · rintro rfl
    simp [request, fetchWithTimeout, classifyError]

/-- Witness for C9 at a concrete input: an aborted fetch maps to the 408
timeout TypedError. -/
theorem c9_timer_cleared_and_timeout_408_witness :
    request [] [] (.error (.err "AbortError" "signal is aborted"))
      = .error (.api ⟨408, API_ERROR_MESSAGES.TIMEOUT, none⟩) :=
  (c9_timer_cleared_and_timeout_408 [] []
    (.error (.err "AbortError" "signal is aborted")) "signal is aborted").2 rfl

/-- C10: after `setDefaultHeaders` merges `X-Foo: bar` into the process-wide
defaults, every request whose own config headers do not mention `X-Foo`
sends `X-Foo: bar` on the wire; a request whose config headers do mention
`X-Foo` wins per key; after a subsequent `removeDefaultHeader("X-Foo")`,
later requests (again without their own `X-Foo`) omit the header while every
other default entry is untouched.  Non-retroactivity is inherent to the
state-passing embedding: a request's sent headers are a function of the
default-header state read when it was issued, so the later removal cannot
change them. -/
theorem c10_default_header_mutations (st cfg1 cfg2 : Headers)
    (h1 : cfg1.lookup "X-Foo" = none) (h2 : cfg2.lookup "X-Foo" = none) :
    ((fetchWithTimeout (setDefaultHeaders st [("X-Foo", "bar")]) cfg1
        (.ok ⟨200, .textVal ""⟩)).sentHeaders).lookup "X-Foo" = some "bar"
    ∧ (∀ (cfg : Headers) (v : String), cfg.lookup "X-Foo" = some v →
        ((fetchWithTimeout (setDefaultHeaders st [("X-Foo", "bar")]) cfg
            (.ok ⟨200, .textVal ""⟩)).sentHeaders).lookup "X-Foo" = some v)
    ∧ ((fetchWithTimeout
          (removeDefaultHeader (setDefaultHeaders st [("X-Foo", "bar")]) "X-Foo") cfg2
          (.ok ⟨200, .textVal ""⟩)).sentHeaders).lookup "X-Foo" = none
    ∧ (∀ k, k ≠ "X-Foo" →
        (removeDefaultHeader (setDefaultHeaders st [("X-Foo", "bar")]) "X-Foo").lookup k
          = (setDefaultHeaders st [("X-Foo", "bar")]).lookup k) := by
  refine ⟨?_, fun cfg v hv => ?_, ?_, fun k hk => ?_⟩
  · show (mergeHeaders (setDefaultHeaders st [("X-Foo", "bar")]) cfg1).lookup "X-Foo" = some "bar"
    rw [lookup_mergeHeaders, h1]
    show (mergeHeaders st [("X-Foo", "bar")]).lookup "X-Foo" = some "bar"
    rw [lookup_mergeHeaders]
    rfl
  · show (mergeHeaders (setDefaultHeaders st [("X-Foo", "bar")]) cfg).lookup "X-Foo" = some v
    rw [lookup_mergeHeaders, hv]
    rfl
  · show (mergeHeaders
        (removeDefaultHeader (setDefaultHeaders st [("X-Foo", "bar")]) "X-Foo") cfg2).lookup "X-Foo" = none
    rw [lookup_mergeHeaders, h2, lookup_removeDefaultHeader]
    simp
  · rw [lookup_removeDefaultHeader]
    simp [hk]

/-- Witness for C10 at a concrete input: starting from the empty default
map, after setting `X-Foo: bar` a request with no config headers sends
`X-Foo: bar`. -/
theorem c10_default_header_mutations_witness :
    ((fetchWithTimeout (setDefaultHeaders [] [("X-Foo", "bar")]) []
        (.ok ⟨200, .textVal ""⟩)).sentHeaders).lookup "X-Foo" = some "bar" :=
  (c10_default_header_mutations [] [] [] rfl rfl).1
